import Mathlib

/-!
# Verification of the trivia backend (`src/backend/flaskr/__init__.py`)

A shallow embedding of the Flask request handlers of the trivia REST
backend, together with proofs about the behaviours its specification
describes.

Modelling conventions:
* The relational store (the two tables `Question` and `Category`,
  accessed through the ORM in the missing `models.py`) is a pair of
  lists.  ORM queries become list operations: `query.get` is `find?`,
  `filter` is `filter`, `count` is `length`, `order_by(id)` is an
  insertion sort on the `id` key.
* Each handler is a pure function from the store and the (already
  parsed) request data to a response.  `abort(n)` becomes the `.err n`
  constructor; a normal `jsonify` return becomes `.ok status body`
  (every `.ok` body carries `success = true` in the JSON envelope).
* Operations that can fail inside the persistence layer
  (`Question.insert`, `Question.delete`) take an explicit Boolean
  `fails` parameter standing for "the store raised an exception here";
  the handlers' `try/except` blocks branch on it exactly where the
  Python code catches.
* `random.choice` receives its randomness as an explicit natural
  number `r`; a uniformly distributed `r` below the pool length picks
  the element at index `r` (the embedding reduces `r` modulo the
  length so it is total in `r`).
* JSON request bodies are association lists of loosely-typed values,
  `Option`al because `request.get_json()` can yield Python `None`.
-/

namespace Trivia

/-- A loosely typed JSON value, as found in a parsed request body. -/
inductive Value where
  | vnull
  | vbool (b : Bool)
  | vint (n : Int)
  | vstr (s : String)
deriving Repr, DecidableEq

/-- Python truthiness of a JSON value (`if not search_term: ...`). -/
def Value.truthy : Value → Bool
  | .vnull => false
  | .vbool b => b
  | .vint n => n != 0
  | .vstr s => s != ""

/-- The string form of a value, as Python string interpolation or
loosely-typed storage would render it (spec §9: the `category` column
holds the string form of whatever was supplied). -/
def Value.asString : Value → String
  | .vnull => "None"
  | .vbool b => if b then "True" else "False"
  | .vint n => toString n
  | .vstr s => s

/-- A parsed JSON object body: an association list of fields. -/
def JsonObj := List (String × Value)

instance : DecidableEq JsonObj := by unfold JsonObj; infer_instance

/-- Python `k in data` membership test on a dict. -/
def JsonObj.hasKey (d : JsonObj) (k : String) : Bool :=
  (d.lookup k).isSome

/-- Python `data.get(k)`: the value at `k`, or `None` when absent. -/
def JsonObj.get (d : JsonObj) (k : String) : Value :=
  (d.lookup k).getD .vnull

/-- A row of the `Question` table.  The `category` column is stored
loosely typed (spec §3, §9); the embedding keeps its string form,
which is what every comparison in the handlers uses
(`Question.category == str(category_id)`). -/
structure Question where
  id : Nat
  question : String
  answer : String
  category : String
  difficulty : Int
deriving Repr, DecidableEq

instance : Inhabited Question := ⟨⟨0, "", "", "", 0⟩⟩

/-- A row of the `Category` table. -/
structure Category where
  id : Nat
  type : String
deriving Repr, DecidableEq

/-- The relational store: the two tables. -/
structure DB where
  questions : List Question
  categories : List Category
deriving Repr, DecidableEq

/-- An HTTP response: a success body with its status code, or an error
status handed to `abort`.  A `.ok` response's JSON envelope carries
`success = true`; a `.err` status is rendered by the registered error
handler (`error_messages` below). -/
inductive HResp (α : Type) where
  | ok (status : Nat) (body : α)
  | err (status : Nat)
deriving Repr, DecidableEq

/-- The fixed status → message table registered as error handlers. -/
def error_messages : List (Nat × String) :=
  [(400, "Bad request"), (404, "Resource not found"),
   (422, "Unprocessable entity"), (500, "Internal server error")]

/-- The uniform JSON error envelope. -/
structure ErrorBody where
  success : Bool
  error : Nat
  message : String
deriving Repr, DecidableEq

/-- `create_error_response`: the error envelope for a status code. -/
def create_error_response (error_code : Nat) (message : String) :
    ErrorBody × Nat :=
  (⟨false, error_code, message⟩, error_code)

/-- Insert into a list sorted by a `Nat` key (stable). -/
def insertByKey (key : α → Nat) (x : α) : List α → List α
  | [] => [x]
  | y :: ys => if key x ≤ key y then x :: y :: ys else y :: insertByKey key x ys

/-- Insertion sort by a `Nat` key: the embedding of `order_by(id)`. -/
def sortByKey (key : α → Nat) : List α → List α
  | [] => []
  | x :: xs => insertByKey key x (sortByKey key xs)

/-- The category table rendered as the `{id: type}` mapping returned
by several endpoints, ordered by id. -/
def categories_dict (db : DB) : List (Nat × String) :=
  (sortByKey Category.id db.categories).map fun c => (c.id, c.type)

/-- `QUESTIONS_PER_PAGE = 10` (the handler's local `PAGE_SIZE`). -/
def PAGE_SIZE : Nat := 10

/-- The slice of questions shown by `GET /questions?page=N`:
questions ordered by id, then `paginate(page, per_page=10,
error_out=False)`.  With `error_out=False` flask-sqlalchemy replaces a
page below 1 by page 1; the page parameter defaults to 1 when absent
or unparseable. -/
def pageItems (db : DB) (pageParam : Option Int) : List Question :=
  let page : Int := pageParam.getD 1
  let page : Int := if page < 1 then 1 else page
  ((sortByKey Question.id db.questions).drop
    ((page - 1).toNat * PAGE_SIZE)).take PAGE_SIZE

/-- Success body of `GET /questions`. -/
structure QuestionsBody where
  questions : List Question
  total_questions : Nat
  categories : List (Nat × String)
  current_category : Option String
deriving Repr, DecidableEq

/-- `GET /questions?page=N` (`get_questions`): paginate the questions
ordered by id; 404 when the requested page has no items; otherwise the
page of questions, the full unfiltered count, the category mapping and
a null current category. -/
def get_questions (db : DB) (pageParam : Option Int) :
    HResp QuestionsBody :=
  let items := pageItems db pageParam
  if items.isEmpty then .err 404
  else .ok 200 ⟨items, db.questions.length, categories_dict db, none⟩

/-- The store after `Question.delete()` removed one row. -/
def deleteRow (db : DB) (question_id : Nat) : DB :=
  { db with questions := db.questions.filter fun q => q.id != question_id }

/-- `DELETE /questions/{id}` (`delete_question`): look up by primary
key, 404 when absent; otherwise try to delete — a persistence failure
(`deleteFails`) is caught and reported 422, success returns 200 with
the deleted id and the row removed. -/
def delete_question (db : DB) (question_id : Nat) (deleteFails : Bool) :
    HResp Nat × DB :=
  match db.questions.find? (fun q => q.id == question_id) with
  | none => (.err 404, db)
  | some _ =>
    if deleteFails then (.err 422, db)
    else (.ok 200 question_id, deleteRow db question_id)

/-- The four keys `POST /questions` requires. -/
def required_fields : List String :=
  ["question", "answer", "category", "difficulty"]

/-- Modelled from the spec: the primary key auto-assigned by the store
on insert (`models.py` is not in the sources; spec §3 says only
"primary key, auto-assigned").  It is one more than the largest id in
the table, hence fresh. -/
def nextId (db : DB) : Nat :=
  db.questions.foldr (fun q m => max q.id m) 0 + 1

/-- The row `create_question` builds from the body.  The store keeps
the loosely-typed `category` and `difficulty` values (spec §3, §9); the
embedding keeps the category's string form and reads the difficulty as
an integer when it is one. -/
def newQuestion (db : DB) (data : JsonObj) : Question :=
  { id := nextId db
    question := (data.get "question").asString
    answer := (data.get "answer").asString
    category := (data.get "category").asString
    difficulty := match data.get "difficulty" with
      | .vint n => n
      | _ => 0 }

/-- Success body of `POST /questions`. -/
structure CreatedBody where
  created : Nat
  total_questions : Nat
deriving Repr, DecidableEq

/-- `POST /questions` (`create_question`).  A body that parsed to
`None` makes `field in data` raise an uncaught `TypeError`, which
Flask reports as a generic 500.  An object body missing one of the
four required keys aborts 400 before anything is persisted.  With all
four present, `insert()` is attempted inside `try`: a persistence
failure (`insertFails`) is caught and reported 422; success returns
201 with the new id and `Question.query.count()` taken after the
insert. -/
def create_question (db : DB) (body : Option JsonObj)
    (insertFails : Bool) : HResp CreatedBody × DB :=
  match body with
  | none => (.err 500, db)
  | some data =>
    if required_fields.all (fun f => data.hasKey f) then
      if insertFails then (.err 422, db)
      else
        let db' : DB :=
          { db with questions := db.questions ++ [newQuestion db data] }
        (.ok 201 ⟨(newQuestion db data).id, db'.questions.length⟩, db')
    else (.err 400, db)

/-- `beginsWith hay pat`: `pat` is an initial segment of `hay`. -/
def beginsWith : List Char → List Char → Bool
  | _, [] => true
  | [], _ :: _ => false
  | x :: xs, y :: ys => x == y && beginsWith xs ys

/-- `hasSubSeq hay pat`: `pat` occurs contiguously inside `hay`. -/
def hasSubSeq (hay pat : List Char) : Bool :=
  match hay with
  | [] => beginsWith [] pat
  | x :: xs => beginsWith (x :: xs) pat || hasSubSeq xs pat

/-- ASCII lower-casing of one character, the case folding `ilike`
performs on ASCII text (and the mapping of `Char.toLower`). -/
def lowerChar (c : Char) : Char :=
  if 65 ≤ c.toNat ∧ c.toNat ≤ 90 then Char.ofNat (c.toNat + 32) else c

/-- A string as its list of lower-cased characters. -/
def lowered (s : String) : List Char :=
  s.toList.map lowerChar

/-- Case-insensitive substring test: the embedding of
`ilike(f"%term%")` as both the SQL documentation and spec §4.5
describe it — the term occurs in the text up to case. -/
def icontains (hay needle : String) : Bool :=
  hasSubSeq (lowered hay) (lowered needle)

/-- Success body of `POST /questions/search` and of
`GET /categories/{id}/questions`. -/
structure SearchBody where
  questions : List Question
  total_questions : Nat
  current_category : Option String
deriving Repr, DecidableEq

/-- The matches of a search term: every question whose text contains
the term case-insensitively, in table order, without pagination. -/
def searchMatches (db : DB) (term : String) : List Question :=
  db.questions.filter fun q => icontains q.question term

/-- `POST /questions/search` (`search_questions`).  A body that parsed
to `None` makes `data.get` raise an uncaught `AttributeError` (500).
A missing or falsy `searchTerm` aborts 400.  Otherwise all
case-insensitive substring matches are returned with their count and
a null current category — also when there are none. -/
def search_questions (db : DB) (body : Option JsonObj) :
    HResp SearchBody :=
  match body with
  | none => .err 500
  | some data =>
    let search_term := data.get "searchTerm"
    if !search_term.truthy then .err 400
    else
      let questions := searchMatches db search_term.asString
      .ok 200 ⟨questions, questions.length, none⟩

/-- `GET /categories/{id}/questions` (`get_questions_by_category`).
Questions are filtered by `category == str(category_id)`; zero
matches abort 404 (outside the `try`).  Inside the `try`, a missing
`Category` row triggers `abort(404)` — but that `NotFound` exception
is caught by the handler's own bare `except:`, which re-aborts 500,
as does any other failure in the block.  Success returns the matches,
their count, and the category's display name. -/
def get_questions_by_category (db : DB) (category_id : Nat) :
    HResp SearchBody :=
  let questions := db.questions.filter
    fun q => q.category == toString category_id
  if questions.length == 0 then .err 404
  else
    match db.categories.find? (fun c => c.id == category_id) with
    | none => .err 500
    | some category =>
      .ok 200 ⟨questions, questions.length, some category.type⟩

/-- The `quiz_category` body field, when it is a well-formed category
object `{id, type}`. -/
structure QuizCategory where
  id : Nat
  type : String
deriving Repr, DecidableEq

/-- The quiz candidate pool, exactly as `play_quiz` builds it: with a
category of nonzero id, questions of that category (compared as the
string form of the id) not among the previous questions; with
category id 0 ("All") or no category, every question not among the
previous ones. -/
def quizPool (db : DB) (previous_questions : List Nat)
    (quiz_category : Option QuizCategory) : List Question :=
  match quiz_category with
  | some c =>
    if c.id == 0 then
      db.questions.filter fun q => !previous_questions.contains q.id
    else
      db.questions.filter fun q =>
        q.category == toString c.id && !previous_questions.contains q.id
  | none =>
    db.questions.filter fun q => !previous_questions.contains q.id

/-- `POST /quizzes` (`play_quiz`): an empty pool returns 200 with a
null question; otherwise `random.choice` picks one pool member — the
randomness is the explicit `r`, reduced modulo the pool length, so a
uniformly distributed `r` below the length yields each member with
equal probability. -/
def play_quiz (db : DB) (previous_questions : List Nat)
    (quiz_category : Option QuizCategory) (r : Nat) :
    HResp (Option Question) :=
  let pool := quizPool db previous_questions quiz_category
  if pool.isEmpty then .ok 200 none
  else .ok 200 (some (pool.getD (r % pool.length) default))

/-! ## Sample data

Concrete rows and stores used to instantiate the theorems below. -/

def sampleQ1 : Question :=
  ⟨1, "What is the CAPITAL of France?", "Paris", "3", 1⟩

def sampleQ2 : Question :=
  ⟨2, "Who wrote Hamlet?", "Shakespeare", "4", 2⟩

def sampleDB : DB :=
  ⟨[sampleQ1, sampleQ2], [⟨3, "Geography"⟩, ⟨4, "Literature"⟩]⟩

/-- A well-formed creation body with all four required keys. -/
def sampleBody : JsonObj :=
  [("question", .vstr "What is 2+2?"), ("answer", .vstr "4"),
   ("category", .vint 3), ("difficulty", .vint 1)]

/-! ## Helper lemmas -/

theorem length_insertByKey (key : α → Nat) (x : α) (l : List α) :
    (insertByKey key x l).length = l.length + 1 := by
  induction l with
  | nil => rfl
  | cons y ys ih =>
    simp only [insertByKey]
    split <;> simp [ih]

theorem length_sortByKey (key : α → Nat) (l : List α) :
    (sortByKey key l).length = l.length := by
  induction l with
  | nil => rfl
  | cons x xs ih => simp [sortByKey, length_insertByKey, ih]

theorem beginsWith_iff (hay pat : List Char) :
    beginsWith hay pat = true ↔ ∃ r, hay = pat ++ r := by
  induction pat generalizing hay with
  | nil => simp [beginsWith]
  | cons y ys ih =>
    cases hay with
    | nil => simp [beginsWith]
    | cons x xs =>
      simp only [beginsWith, Bool.and_eq_true, beq_iff_eq, ih,
        List.cons_append, List.cons.injEq]
      constructor
      · rintro ⟨rfl, r, rfl⟩; exact ⟨r, rfl, rfl⟩
      · rintro ⟨r, rfl, rfl⟩; exact ⟨rfl, r, rfl⟩

theorem hasSubSeq_iff (hay pat : List Char) :
    hasSubSeq hay pat = true ↔ ∃ l r, hay = l ++ pat ++ r := by
  induction hay with
  | nil =>
    simp only [hasSubSeq, beginsWith_iff]
    constructor
    · rintro ⟨r, h⟩; exact ⟨[], r, h⟩
    · rintro ⟨l, r, h⟩
      rcases List.append_eq_nil.mp (List.append_eq_nil.mp h.symm).1 with ⟨h1, h2⟩
      refine ⟨r, ?_⟩
      simpa [h1, h2] using h
  | cons x xs ih =>
    simp only [hasSubSeq, Bool.or_eq_true, beginsWith_iff, ih]
    constructor
    · rintro (⟨r, h⟩ | ⟨l, r, h⟩)
      · exact ⟨[], r, by simp [h]⟩
      · exact ⟨x :: l, r, by simp [h]⟩
    · rintro ⟨l, r, h⟩
      cases l with
      | nil => exact .inl ⟨r, by simpa using h⟩
      | cons a as =>
        right
        refine ⟨as, r, ?_⟩
        have := h
        simp only [List.cons_append, List.cons.injEq] at this
        exact this.2

/-- The meaning of `icontains`: the lower-cased term occurs
contiguously in the lower-cased text. -/
theorem icontains_iff (hay needle : String) :
    icontains hay needle = true ↔
      ∃ l r, lowered hay = l ++ lowered needle ++ r :=
  hasSubSeq_iff _ _

/-! ## Claim theorems -/

/-- C3: for every `GET /questions?page=N` request (questions ordered
by id, sliced into fixed pages of 10, page defaulting to 1): when the
requested page contains at least one question the response is 200 and
holds at most 10 questions with `total_questions` equal to the full
unfiltered question count; when the page yields zero items the
response is 404. -/
theorem get_questions_paged (db : DB) (pageParam : Option Int) :
    (pageItems db pageParam ≠ [] →
      get_questions db pageParam =
        .ok 200 ⟨pageItems db pageParam, db.questions.length,
          categories_dict db, none⟩ ∧
      (pageItems db pageParam).length ≤ 10) ∧
    (pageItems db pageParam = [] →
      get_questions db pageParam = .err 404) := by
  constructor
  · intro hne
    have hempty : (pageItems db pageParam).isEmpty = false := by
      cases h : pageItems db pageParam with
      | nil => exact absurd h hne
      | cons a l => rfl
    constructor
    · simp [get_questions, hempty]
    · have : pageItems db pageParam =
          ((sortByKey Question.id db.questions).drop
            (((if (pageParam.getD 1) < 1 then 1
              else pageParam.getD 1) - 1).toNat * PAGE_SIZE)).take
            PAGE_SIZE := rfl
      rw [this, List.length_take]
      exact le_trans (Nat.min_le_left _ _) (by norm_num [PAGE_SIZE])
  · intro h
    simp [get_questions, h]

/-- C3 witness: the first page of the two-question sample store. -/
theorem get_questions_paged_witness :
    get_questions sampleDB none =
      .ok 200 ⟨pageItems sampleDB none, sampleDB.questions.length,
        categories_dict sampleDB, none⟩ ∧
    (pageItems sampleDB none).length ≤ 10 :=
  (get_questions_paged sampleDB none).1 (by decide)

/-- C10: for every `GET /questions` request with page 0 or negative,
pagination with `error_out=False` substitutes page 1, so with a
non-empty question table the response is 200 carrying the first page
of questions, not a 404. -/
theorem get_questions_page_clamped (db : DB) (p : Int) (hp : p ≤ 0)
    (hne : db.questions ≠ []) :
    get_questions db (some p) =
      .ok 200 ⟨(sortByKey Question.id db.questions).take PAGE_SIZE,
        db.questions.length, categories_dict db, none⟩ := by
  have hitems : pageItems db (some p) =
      (sortByKey Question.id db.questions).take PAGE_SIZE := by
    simp only [pageItems, Option.getD]
    rw [if_pos (by omega : p < 1)]
    norm_num
  have hlen : 0 < (pageItems db (some p)).length := by
    rw [hitems, List.length_take, length_sortByKey]
    have h0 : 0 < db.questions.length := List.length_pos.mpr hne
    simp only [PAGE_SIZE]
    omega
  have hempty : (pageItems db (some p)).isEmpty = false := by
    cases h : pageItems db (some p) with
    | nil => rw [h] at hlen; simp at hlen
    | cons a l => rfl
  rw [hitems] at hempty
  simp only [get_questions, hitems, hempty, Bool.false_eq_true, if_false]

/-- C10 witness: page 0 on the sample store yields its first page. -/
theorem get_questions_page_clamped_witness :
    get_questions sampleDB (some 0) =
      .ok 200 ⟨(sortByKey Question.id sampleDB.questions).take PAGE_SIZE,
        sampleDB.questions.length, categories_dict sampleDB, none⟩ :=
  get_questions_page_clamped sampleDB 0 (by decide) (by decide)

/-- C4: for every question id present in the store,
`DELETE /questions/{id}` (absent a persistence failure) returns 200
with `deleted` equal to that id and removes the question, so an
immediately repeated DELETE of the same id returns 404; DELETE of an
absent id returns 404; a persistence failure during the delete is
reported as 422. -/
theorem delete_question_spec (db : DB) (qid : Nat) :
    ((db.questions.find? fun q => q.id == qid) = none →
      ∀ fails, delete_question db qid fails = (.err 404, db)) ∧
    ((db.questions.find? fun q => q.id == qid) ≠ none →
      delete_question db qid true = (.err 422, db) ∧
      delete_question db qid false = (.ok 200 qid, deleteRow db qid) ∧
      ((deleteRow db qid).questions.find? fun q => q.id == qid) = none ∧
      ∀ fails, delete_question (deleteRow db qid) qid fails =
        (.err 404, deleteRow db qid)) := by
  have hnone :
      ((deleteRow db qid).questions.find? fun q => q.id == qid) = none := by
    rw [List.find?_eq_none]
    intro q hq
    simp only [deleteRow, List.mem_filter, bne_iff_ne, ne_eq] at hq
    simp [hq.2]
  constructor
  · intro h fails
    simp [delete_question, h]
  · intro h
    obtain ⟨q, hq⟩ := Option.ne_none_iff_exists'.mp h
    refine ⟨?_, ?_, hnone, ?_⟩
    · simp [delete_question, hq]
    · simp [delete_question, hq]
    · intro fails
      simp [delete_question, hnone]

/-- C4 witness: deleting question 1 of the sample store succeeds once
and 404s on repetition. -/
theorem delete_question_spec_witness :
    delete_question sampleDB 1 false = (.ok 200 1, deleteRow sampleDB 1) ∧
    delete_question (deleteRow sampleDB 1) 1 false =
      (.err 404, deleteRow sampleDB 1) :=
  ⟨((delete_question_spec sampleDB 1).2 (by decide)).2.1,
   ((delete_question_spec sampleDB 1).2 (by decide)).2.2.2 false⟩

/-- C5: for every `POST /questions` whose object body is missing at
least one of the keys question, answer, category, difficulty, the
response is 400 regardless of the other keys' values and the store is
unchanged. -/
theorem create_question_missing_key (db : DB) (data : JsonObj)
    (fails : Bool) (h : ∃ f ∈ required_fields, data.hasKey f = false) :
    create_question db (some data) fails = (.err 400, db) := by
  have hall : (required_fields.all fun f => data.hasKey f) = false := by
    rw [List.all_eq_false]
    obtain ⟨f, hf, hfk⟩ := h
    exact ⟨f, hf, by simp [hfk]⟩
  simp [create_question, hall]

/-- C5 witness: a body with only question and answer is rejected 400. -/
theorem create_question_missing_key_witness :
    create_question sampleDB
      (some [("question", .vstr "Q?"), ("answer", .vstr "A")]) false =
      (.err 400, sampleDB) :=
  create_question_missing_key sampleDB _ false
    ⟨"category", by decide, by decide⟩

/-- C6: for every `POST /questions` with all four required keys
present, a persistence failure on insert is reported 422 (neither 201
nor 400), and a successful insert returns 201 with `created` the new
row's id and `total_questions` the post-insert count, one more than
before. -/
theorem create_question_all_keys (db : DB) (data : JsonObj)
    (h : ∀ f ∈ required_fields, data.hasKey f = true) :
    create_question db (some data) true = (.err 422, db) ∧
    create_question db (some data) false =
      (.ok 201 ⟨(newQuestion db data).id,
        (db.questions ++ [newQuestion db data]).length⟩,
       ⟨db.questions ++ [newQuestion db data], db.categories⟩) ∧
    (db.questions ++ [newQuestion db data]).length =
      db.questions.length + 1 := by
  have hall : (required_fields.all fun f => data.hasKey f) = true :=
    List.all_eq_true.mpr h
  refine ⟨?_, ?_, by simp⟩
  · simp [create_question, hall]
  · simp [create_question, hall]

/-- C6 witness: inserting the sample body into the sample store. -/
theorem create_question_all_keys_witness :
    create_question sampleDB (some sampleBody) true =
      (.err 422, sampleDB) ∧
    create_question sampleDB (some sampleBody) false =
      (.ok 201 ⟨(newQuestion sampleDB sampleBody).id,
        (sampleDB.questions ++ [newQuestion sampleDB sampleBody]).length⟩,
       ⟨sampleDB.questions ++ [newQuestion sampleDB sampleBody],
        sampleDB.categories⟩) ∧
    (sampleDB.questions ++ [newQuestion sampleDB sampleBody]).length =
      sampleDB.questions.length + 1 :=
  create_question_all_keys sampleDB sampleBody (by decide)

/-- C9: when the JSON body of `POST /questions` parses to `None`, the
membership test `field in data` raises an uncaught `TypeError`, so
the response is the generic 500, not 400, and the store is
unchanged. -/
theorem create_question_null_body (db : DB) (fails : Bool) :
    create_question db none fails = (.err 500, db) := rfl

/-- C7: for every `POST /questions/search` with a non-empty string
`searchTerm`, the response is 200 and its question list is exactly
the questions whose text contains the term as a case-insensitive
substring, unpaginated, with `total_questions` the list's length and
a null current category; zero matches still yield 200 with the empty
list and count 0, never 404. -/
theorem search_questions_spec (db : DB) (data : JsonObj) (t : String)
    (hget : data.get "searchTerm" = .vstr t) (hne : t ≠ "") :
    search_questions db (some data) =
      .ok 200 ⟨searchMatches db t, (searchMatches db t).length, none⟩ ∧
    (∀ q, q ∈ searchMatches db t ↔
      q ∈ db.questions ∧
        ∃ l r, lowered q.question = l ++ lowered t ++ r) ∧
    (searchMatches db t = [] →
      search_questions db (some data) = .ok 200 ⟨[], 0, none⟩) := by
  have htr : (t != "") = true := bne_iff_ne.mpr hne
  have h1 : search_questions db (some data) =
      .ok 200 ⟨searchMatches db t, (searchMatches db t).length, none⟩ := by
    simp [search_questions, hget, Value.truthy, htr, Value.asString]
  refine ⟨h1, ?_, ?_⟩
  · intro q
    simp [searchMatches, List.mem_filter, icontains_iff]
  · intro hnil
    rw [hnil] at h1
    simpa using h1

/-- C7 witness: searching "capital" in the sample store finds the
question containing "CAPITAL". -/
theorem search_questions_spec_witness :
    search_questions sampleDB (some [("searchTerm", .vstr "capital")]) =
      .ok 200 ⟨searchMatches sampleDB "capital",
        (searchMatches sampleDB "capital").length, none⟩ :=
  (search_questions_spec sampleDB [("searchTerm", .vstr "capital")]
    "capital" rfl (by decide)).1

/-- C8: for every `POST /questions/search` whose object body has no
`searchTerm` key or whose `searchTerm` is the empty string, the
response is 400 and no search result is produced. -/
theorem search_questions_bad_term (db : DB) (data : JsonObj)
    (h : data.hasKey "searchTerm" = false ∨
      data.get "searchTerm" = .vstr "") :
    search_questions db (some data) = .err 400 := by
  have htr : (data.get "searchTerm").truthy = false := by
    rcases h with h | h
    · have hn : data.lookup "searchTerm" = none := by
        cases hl : data.lookup "searchTerm" with
        | none => rfl
        | some v =>
          rw [JsonObj.hasKey, hl] at h
          simp at h
      simp [JsonObj.get, hn, Value.truthy]
    · simp [h, Value.truthy]
  simp [search_questions, htr]

/-- C8 witness: an empty body object is rejected 400. -/
theorem search_questions_bad_term_witness :
    search_questions sampleDB (some []) = .err 400 :=
  search_questions_bad_term sampleDB [] (.inl (by decide))

/-- C2: for every `POST /quizzes` request, the candidate pool is all
questions whose id is not among `previous_questions`, restricted to
the category whose string-formed id matches when `quiz_category` has
a nonzero id (id 0 meaning all categories): an empty pool answers 200
with a null question, and otherwise the answer is the pool member at
the uniformly drawn index, each index below the pool length giving
that member. -/
theorem play_quiz_spec (db : DB) (prev : List Nat)
    (qc : Option QuizCategory) :
    quizPool db prev qc = db.questions.filter (fun q =>
      !prev.contains q.id &&
        match qc with
        | some c => c.id == 0 || q.category == toString c.id
        | none => true) ∧
    (quizPool db prev qc = [] →
      ∀ r, play_quiz db prev qc r = .ok 200 none) ∧
    (∀ r (hr : r < (quizPool db prev qc).length),
      play_quiz db prev qc r =
        .ok 200 (some ((quizPool db prev qc).get ⟨r, hr⟩))) := by
  refine ⟨?_, ?_, ?_⟩
  · cases qc with
    | none => simp [quizPool]
    | some c =>
      cases h0 : (c.id == 0) with
      | true => simp [quizPool, h0]
      | false =>
        simp only [quizPool, h0, Bool.false_eq_true, if_false]
        refine List.filter_congr ?_
        intro x hx
        simp [h0, Bool.and_comm]
  · intro h r
    simp [play_quiz, h]
  · intro r hr
    have hne : (quizPool db prev qc).isEmpty = false := by
      cases hq : quizPool db prev qc with
      | nil => rw [hq] at hr; simp at hr
      | cons a l => rfl
    have hmod : r % (quizPool db prev qc).length = r := Nat.mod_eq_of_lt hr
    simp only [play_quiz, hne, Bool.false_eq_true, if_false, hmod]
    congr 1
    rw [List.getD_eq_getElem?_getD, List.getElem?_eq_getElem hr]
    simp [List.get_eq_getElem]

/-- C2 witness: with nothing previous and no category restriction,
index 1 draws the second sample question. -/
theorem play_quiz_spec_witness :
    play_quiz sampleDB [] none 1 = .ok 200 (some sampleQ2) :=
  (play_quiz_spec sampleDB [] none).2.2 1 (by decide)

/-- C1: at a store holding a question whose category is "5" but no
Category row with id 5, `GET /categories/5/questions` answers 500 —
not the 404 the specification states for a missing category id —
because the handler's `abort(404)` for the missing row is raised
inside its own `try` block, whose bare `except:` converts it to
`abort(500)`. -/
theorem get_questions_by_category_missing_row :
    get_questions_by_category ⟨[⟨7, "What is 2+2?", "4", "5", 2⟩], []⟩ 5 =
      .err 500 := by decide

end Trivia
